import Mathlib

/-!
Verification development for `tools/fast-whisper-transcribe.py`, a single-file
CLI wrapper around the faster-whisper speech-recognition library.

The script is shallowly embedded: argument parsing becomes a total function
from raw CLI option values to `Except ParseError Config`; the external
library (import, model construction, transcription) becomes an explicit
environment of functions; the whole program becomes a pure function from raw
arguments and environment to an `Outcome` recording exit code, stdout lines,
stderr lines, and the trace of library interactions.
-/

/-- Python ASCII whitespace as recognized by `str.strip()` / `int()`. -/
def pyIsSpace (c : Char) : Bool :=
  c = ' ' || c = '\t' || c = '\n' || c = '\r' || c.toNat = 11 || c.toNat = 12

/-- Python `str.strip()`: drop leading and trailing whitespace. -/
def pyStrip (s : String) : String :=
  String.mk (((s.data.dropWhile pyIsSpace).reverse.dropWhile pyIsSpace).reverse)

/-- Tail of a Python integer-literal digit sequence: digits, optionally
separated by single underscores (as in Python 3 `int()`). -/
def digitRest : List Char → Bool
  | [] => true
  | '_' :: c :: rest => c.isDigit && digitRest rest
  | c :: rest => c.isDigit && digitRest rest

/-- A nonempty digit sequence with optional single underscores between
digits, as accepted by Python `int()` after sign and whitespace. -/
def isDigitSeq : List Char → Bool
  | [] => false
  | c :: rest => c.isDigit && digitRest rest

/-- Numeric value of a digit sequence, ignoring underscores. -/
def natOfDigitChars (cs : List Char) : Nat :=
  cs.foldl (fun acc c => if c = '_' then acc else acc * 10 + (c.toNat - 48)) 0

/-- Python `int(s)` on a string, as used by argparse `type=int`:
strip whitespace, optional sign, then an underscore-separated digit run;
`none` models `ValueError`. -/
def pythonParseInt (s : String) : Option Int :=
  let cs := ((s.data.dropWhile pyIsSpace).reverse.dropWhile pyIsSpace).reverse
  match cs with
  | '+' :: rest => if isDigitSeq rest then some (natOfDigitChars rest : Int) else none
  | '-' :: rest => if isDigitSeq rest then some (-(natOfDigitChars rest : Int)) else none
  | _ => if isDigitSeq cs then some (natOfDigitChars cs : Int) else none

/-- Raw CLI option values, with argparse defaults from `parse_args`:
`--model small`, `--device auto`, `--compute-type int8`, `--language` absent,
`--beam-size 1`, `--vad-filter true`; `--audio` is required (no default). -/
structure RawArgs where
  audio : Option String := none
  model : String := "small"
  device : String := "auto"
  computeType : String := "int8"
  language : Option String := none
  beamSizeToken : String := "1"
  vadFilterToken : String := "true"
deriving DecidableEq, Repr

/-- The parsed argparse namespace consumed by `main`. -/
structure Config where
  audio : String
  model : String
  device : String
  computeType : String
  language : Option String
  beamSize : Int
  vadFilter : String
deriving DecidableEq, Repr

/-- The three ways argparse rejects this script's command line. -/
inductive ParseError
  | missingAudio
  | badBeamSize (token : String)
  | badVadFilter (token : String)
deriving DecidableEq, Repr

/-- The usage diagnostic argparse writes to stderr before exiting with 2. -/
def usageMessage : ParseError → String
  | .missingAudio => "usage error: the following arguments are required: --audio"
  | .badBeamSize t => "usage error: argument --beam-size: invalid int value: " ++ t
  | .badVadFilter t => "usage error: argument --vad-filter: invalid choice: " ++ t

/-- Checks on raw values other than the `--beam-size` integer conversion:
`--vad-filter` must be one of the two literal choices, `--audio` is required. -/
def parseRest (raw : RawArgs) (beam : Int) : Except ParseError Config :=
  if raw.vadFilterToken = "true" ∨ raw.vadFilterToken = "false" then
    match raw.audio with
    | none => .error .missingAudio
    | some a =>
      .ok ⟨a, raw.model, raw.device, raw.computeType, raw.language, beam,
        raw.vadFilterToken⟩
  else
    .error (.badVadFilter raw.vadFilterToken)

/-- `parse_args` from the script: argparse with `--beam-size` of `type=int`,
`--vad-filter` restricted to choices `true`/`false`, `--audio` required. -/
def parse_args (raw : RawArgs) : Except ParseError Config :=
  match pythonParseInt raw.beamSizeToken with
  | none => .error (.badBeamSize raw.beamSizeToken)
  | some beam => parseRest raw beam

/-- A segment record yielded by the library; only `.text` is consumed,
and it may be absent/None. -/
structure Segment where
  text : Option String
deriving DecidableEq, Repr

/-- The info record returned alongside the segments; `.language` may be
absent (modelling `getattr(info, "language", "")`). -/
structure TranscribeInfo where
  language : Option String
deriving DecidableEq, Repr

/-- One fragment of the joined text: `(segment.text or "").strip()`. -/
def segmentFragment (seg : Segment) : String :=
  pyStrip (seg.text.getD "")

/-- `" ".join((segment.text or "").strip() for segment in segments).strip()`. -/
def joinSegments (segs : List Segment) : String :=
  pyStrip (String.intercalate " " (segs.map segmentFragment))

/-- `getattr(info, "language", "") or ""`: the payload's language field. -/
def payloadLanguage (info : TranscribeInfo) : String :=
  match info.language with
  | none => ""
  | some s => if s = "" then "" else s

/-- The two-field result record serialized on success. -/
structure Payload where
  text : String
  language : String
deriving DecidableEq, Repr

/-- One hexadecimal digit, lowercase, as in Python's `\uXXXX` escapes. -/
def hexDigit (n : Nat) : Char :=
  if n < 10 then Char.ofNat (48 + n) else Char.ofNat (87 + n)

/-- Four lowercase hex digits. -/
def hex4 (n : Nat) : String :=
  String.mk [hexDigit (n / 4096 % 16), hexDigit (n / 256 % 16),
    hexDigit (n / 16 % 16), hexDigit (n % 16)]

/-- JSON string-character encoding as done by `json.dumps` with
`ensure_ascii=False`: escape the quote, the backslash and control
characters; every other character (non-ASCII included) passes verbatim. -/
def jsonEscapeChar (c : Char) : String :=
  if c = '"' then "\\\""
  else if c = '\\' then "\\\\"
  else if c = '\n' then "\\n"
  else if c = '\r' then "\\r"
  else if c = '\t' then "\\t"
  else if c.toNat = 8 then "\\b"
  else if c.toNat = 12 then "\\f"
  else if c.toNat < 32 then "\\u" ++ hex4 c.toNat
  else String.singleton c

/-- Escape every character of a JSON string body. -/
def jsonEscape (s : String) : String :=
  String.join (s.data.map jsonEscapeChar)

/-- A JSON string literal. -/
def jsonQuote (s : String) : String :=
  "\"" ++ jsonEscape s ++ "\""

/-- `json.dumps({"text": ..., "language": ...}, ensure_ascii=False)`:
one object with exactly the two fields, in insertion order. -/
def jsonDumps (p : Payload) : String :=
  "\x7b\"text\": " ++ jsonQuote p.text ++ ", \"language\": " ++
    jsonQuote p.language ++ "\x7d"

/-- Arguments of `WhisperModel(args.model, device=..., compute_type=...)`. -/
structure ModelCall where
  model : String
  device : String
  computeType : String
deriving DecidableEq, Repr

/-- Arguments of `model.transcribe(...)`. -/
structure TranscribeCall where
  audio : String
  beamSize : Int
  language : Option String
  vadFilter : Bool
deriving DecidableEq, Repr

/-- The beam width actually passed: `max(1, args.beam_size)`. -/
def beamSizeArg (cfg : Config) : Int := max 1 cfg.beamSize

/-- The language hint actually passed: `args.language or None`
(absent and empty both mean auto-detect). -/
def languageArg (cfg : Config) : Option String :=
  match cfg.language with
  | none => none
  | some s => if s = "" then none else some s

/-- The model-constructor call built from the configuration. -/
def modelCall (cfg : Config) : ModelCall :=
  ⟨cfg.model, cfg.device, cfg.computeType⟩

/-- The transcription call built from the configuration, including
`vad_filter = args.vad_filter == "true"`. -/
def transcribeCall (cfg : Config) : TranscribeCall :=
  ⟨cfg.audio, beamSizeArg cfg, languageArg cfg, cfg.vadFilter == "true"⟩

/-- Library interactions, in the order the script performs them. -/
inductive Event
  | importAttempt
  | modelConstruct (c : ModelCall)
  | transcribeAttempt (m : ModelCall) (c : TranscribeCall)
deriving DecidableEq, Repr

/-- The external faster-whisper library, as an environment: whether the
module imports, whether `WhisperModel(...)` raises, and what
`model.transcribe(...)` returns or raises. `Except.error` carries the
exception message. -/
structure Env where
  importFasterWhisper : Except String Unit
  construct : ModelCall → Except String Unit
  transcribe : ModelCall → TranscribeCall → Except String (List Segment × TranscribeInfo)

/-- Observable result of one process invocation. -/
structure Outcome where
  exitCode : Nat
  stdout : List String
  stderr : List String
  events : List Event
deriving DecidableEq, Repr

/-- Body of `main` after `parse_args` returned: try the import (exit 2 with
a prefixed stderr line on failure), then construct the model and transcribe
inside one try/except (exit 1 with a prefixed stderr line on any failure),
else print the JSON payload and return 0. -/
def mainAfterParse (cfg : Config) (env : Env) : Outcome :=
  match env.importFasterWhisper with
  | .error exc =>
    ⟨2, [], ["faster-whisper import failed: " ++ exc], [.importAttempt]⟩
  | .ok _ =>
    match env.construct (modelCall cfg) with
    | .error exc =>
      ⟨1, [], ["transcribe failed: " ++ exc],
        [.importAttempt, .modelConstruct (modelCall cfg)]⟩
    | .ok _ =>
      match env.transcribe (modelCall cfg) (transcribeCall cfg) with
      | .error exc =>
        ⟨1, [], ["transcribe failed: " ++ exc],
          [.importAttempt, .modelConstruct (modelCall cfg),
            .transcribeAttempt (modelCall cfg) (transcribeCall cfg)]⟩
      | .ok (segs, info) =>
        ⟨0, [jsonDumps ⟨joinSegments segs, payloadLanguage info⟩], [],
          [.importAttempt, .modelConstruct (modelCall cfg),
            .transcribeAttempt (modelCall cfg) (transcribeCall cfg)]⟩

/-- The whole program: argparse terminates the process with a usage error
(status 2, usage text on stderr, no library interaction) on bad input,
otherwise `main`'s body runs. -/
def mainRun (raw : RawArgs) (env : Env) : Outcome :=
  match parse_args raw with
  | .error e => ⟨2, [], [usageMessage e], []⟩
  | .ok cfg => mainAfterParse cfg env

/-! ### Concrete instantiations used by witnesses -/

/-- Environment in which everything succeeds. -/
def envOk : Env :=
  ⟨.ok (), fun _ => .ok (),
    fun _ _ => .ok ([⟨some "  hello "⟩, ⟨some ""⟩, ⟨some " world"⟩], ⟨some "zh"⟩)⟩

/-- A default command line naming an audio file. -/
def rawOk : RawArgs := { audio := some "a.wav" }

/-- The configuration `parse_args` produces from `rawOk`. -/
def cfgOk : Config := ⟨"a.wav", "small", "auto", "int8", none, 1, "true"⟩

/-- Environment in which the faster-whisper import raises. -/
def envNoLib : Env :=
  ⟨.error "No module named faster_whisper", fun _ => .ok (),
    fun _ _ => .ok ([], ⟨none⟩)⟩

/-- Environment in which transcription raises. -/
def envBadAudio : Env :=
  ⟨.ok (), fun _ => .ok (),
    fun _ _ => .error "Invalid data found when processing input"⟩

/-- Environment yielding one non-ASCII segment and language `zh`. -/
def envZh : Env :=
  ⟨.ok (), fun _ => .ok (), fun _ _ => .ok ([⟨some "你好"⟩], ⟨some "zh"⟩)⟩

/-! ### Helper lemmas -/

/-- `mainAfterParse` depends on the configuration only through the two
library calls built from it. -/
theorem mainAfterParse_congr (cfg cfg' : Config) (env : Env)
    (hm : modelCall cfg = modelCall cfg')
    (ht : transcribeCall cfg = transcribeCall cfg') :
    mainAfterParse cfg env = mainAfterParse cfg' env := by
  simp only [mainAfterParse, hm, ht]

/-! ### Claims -/

/-- Claim C1, counterexample: on segment texts `"  hello "`, `""`,
`" world"`, the reduction does NOT yield `"hello world"`: the empty
fragment is kept by the join and contributes a second separator space. -/
theorem C1_counterexample :
    joinSegments [⟨some "  hello "⟩, ⟨some ""⟩, ⟨some " world"⟩] ≠
      "hello world" := by decide

/-- Claim C1, amended: each segment text is trimmed, the trimmed fragments
(empty ones included) are joined with a single space — so the empty middle
fragment leaves two adjacent spaces — and the whole result is trimmed,
yielding `"hello  world"`. -/
theorem C1_join_reduction :
    joinSegments [⟨some "  hello "⟩, ⟨some ""⟩, ⟨some " world"⟩] =
      "hello  world" := by decide

/-- Claim C2: the payload's language equals the info record's language when
present and truthy (nonempty), and the empty string when the attribute is
absent or falsy; it is always a string. -/
theorem C2_language_normalization (info : TranscribeInfo) :
    (info.language = none → payloadLanguage info = "") ∧
    (info.language = some "" → payloadLanguage info = "") ∧
    (∀ s, info.language = some s → s ≠ "" → payloadLanguage info = s) := by
  refine ⟨?_, ?_, ?_⟩
  · intro h; simp [payloadLanguage, h]
  · intro h; simp [payloadLanguage, h]
  · intro s h hs; simp [payloadLanguage, h, hs]

/-- Witness for C2 at concrete info records. -/
theorem C2_language_witness :
    payloadLanguage ⟨some "zh"⟩ = "zh" ∧ payloadLanguage ⟨none⟩ = "" :=
  ⟨(C2_language_normalization ⟨some "zh"⟩).2.2 "zh" rfl (by decide),
   (C2_language_normalization ⟨none⟩).1 rfl⟩

/-- Claim C3: a `--beam-size` value below 1 makes the whole program behave
identically to `--beam-size 1` (same outcome, same library calls), because
the beam width handed to `model.transcribe` is `max(1, args.beam_size)`;
and that beam width is always at least 1. -/
theorem C3_beam_clamped (raw : RawArgs) (env : Env) (b : Int)
    (hb : pythonParseInt raw.beamSizeToken = some b) (hlt : b < 1) :
    mainRun raw env = mainRun { raw with beamSizeToken := "1" } env ∧
    ∀ cfg : Config, 1 ≤ (transcribeCall cfg).beamSize := by
  constructor
  · have h1 : pythonParseInt
        (({ raw with beamSizeToken := "1" } : RawArgs).beamSizeToken) =
        some 1 := rfl
    have h2 : parseRest { raw with beamSizeToken := "1" } 1 =
        parseRest raw 1 := rfl
    simp only [mainRun, parse_args, hb, h1, h2]
    unfold parseRest
    by_cases hv : raw.vadFilterToken = "true" ∨ raw.vadFilterToken = "false"
    · simp only [if_pos hv]
      cases ha : raw.audio with
      | none => rfl
      | some a =>
        exact mainAfterParse_congr
          ⟨a, raw.model, raw.device, raw.computeType, raw.language, b,
            raw.vadFilterToken⟩
          ⟨a, raw.model, raw.device, raw.computeType, raw.language, 1,
            raw.vadFilterToken⟩
          env rfl (by
            simp only [transcribeCall, beamSizeArg]
            rw [max_eq_left hlt.le, max_self]
            exact rfl)
    · simp only [if_neg hv]
  · intro cfg
    exact le_max_left 1 cfg.beamSize

/-- A command line giving `--beam-size 0`. -/
def rawBeam0 : RawArgs := { audio := some "a.wav", beamSizeToken := "0" }

/-- Witness for C3 at `--beam-size 0`. -/
theorem C3_beam_witness :
    mainRun rawBeam0 envOk =
      mainRun { rawBeam0 with beamSizeToken := "1" } envOk ∧
    ∀ cfg : Config, 1 ≤ (transcribeCall cfg).beamSize :=
  C3_beam_clamped rawBeam0 envOk 0 (by decide) (by decide)

/-- Claim C4: any `--vad-filter` token other than the literals `true` and
`false` is rejected at argument-parsing time: the process terminates with a
usage error (status 2), no library interaction happens, nothing is printed
to stdout. -/
theorem C4_vad_rejected (raw : RawArgs) (env : Env)
    (h1 : raw.vadFilterToken ≠ "true") (h2 : raw.vadFilterToken ≠ "false") :
    (∃ e, parse_args raw = .error e) ∧
    (mainRun raw env).exitCode = 2 ∧
    (mainRun raw env).events = [] ∧
    (mainRun raw env).stdout = [] := by
  have hv : ¬(raw.vadFilterToken = "true" ∨ raw.vadFilterToken = "false") :=
    fun h => h.elim h1 h2
  have herr : ∃ e, parse_args raw = .error e := by
    cases hp : pythonParseInt raw.beamSizeToken with
    | none =>
      exact ⟨.badBeamSize raw.beamSizeToken, by simp only [parse_args, hp]⟩
    | some b =>
      exact ⟨.badVadFilter raw.vadFilterToken,
        by simp only [parse_args, hp, parseRest, if_neg hv]⟩
  obtain ⟨e, he⟩ := herr
  refine ⟨⟨e, he⟩, ?_, ?_, ?_⟩ <;> simp only [mainRun, he]

/-- Witness for C4 with `--vad-filter yes`. -/
theorem C4_vad_witness :
    (∃ e, parse_args { rawOk with vadFilterToken := "yes" } = .error e) ∧
    (mainRun { rawOk with vadFilterToken := "yes" } envOk).exitCode = 2 ∧
    (mainRun { rawOk with vadFilterToken := "yes" } envOk).events = [] ∧
    (mainRun { rawOk with vadFilterToken := "yes" } envOk).stdout = [] :=
  C4_vad_rejected { rawOk with vadFilterToken := "yes" } envOk
    (by decide) (by decide)

/-- Claim C5: when the faster-whisper import raises, the program exits with
status 2 and a single stderr line `"faster-whisper import failed: "` plus
the cause; no model construction and no transcription is attempted, and
nothing is written to stdout. -/
theorem C5_import_failure (raw : RawArgs) (cfg : Config) (env : Env)
    (exc : String) (hp : parse_args raw = .ok cfg)
    (hi : env.importFasterWhisper = .error exc) :
    mainRun raw env =
      ⟨2, [], ["faster-whisper import failed: " ++ exc], [.importAttempt]⟩ := by
  simp only [mainRun, hp, mainAfterParse, hi]

/-- Witness for C5 with a missing library module. -/
theorem C5_import_witness :
    mainRun rawOk envNoLib =
      ⟨2, [],
        ["faster-whisper import failed: No module named faster_whisper"],
        [.importAttempt]⟩ :=
  C5_import_failure rawOk cfgOk envNoLib "No module named faster_whisper"
    rfl rfl

/-- Claim C6: any exception during model construction or transcription is
caught by the one catch-all handler: the program exits with status 1 and a
single stderr line `"transcribe failed: "` plus the message, and the event
trace shows the single attempt (no retries) and no stdout payload. -/
theorem C6_runtime_failure (raw : RawArgs) (cfg : Config) (env : Env)
    (exc : String) (hp : parse_args raw = .ok cfg)
    (hi : env.importFasterWhisper = .ok ()) :
    (env.construct (modelCall cfg) = .error exc →
      mainRun raw env = ⟨1, [], ["transcribe failed: " ++ exc],
        [.importAttempt, .modelConstruct (modelCall cfg)]⟩) ∧
    (env.construct (modelCall cfg) = .ok () →
      env.transcribe (modelCall cfg) (transcribeCall cfg) = .error exc →
      mainRun raw env = ⟨1, [], ["transcribe failed: " ++ exc],
        [.importAttempt, .modelConstruct (modelCall cfg),
          .transcribeAttempt (modelCall cfg) (transcribeCall cfg)]⟩) := by
  constructor
  · intro hc
    simp only [mainRun, hp, mainAfterParse, hi, hc]
  · intro hc ht
    simp only [mainRun, hp, mainAfterParse, hi, hc, ht]

/-- Witness for C6: transcription raises on corrupt audio. -/
theorem C6_runtime_witness :
    mainRun rawOk envBadAudio =
      ⟨1, [], ["transcribe failed: Invalid data found when processing input"],
        [.importAttempt, .modelConstruct (modelCall cfgOk),
          .transcribeAttempt (modelCall cfgOk) (transcribeCall cfgOk)]⟩ :=
  (C6_runtime_failure rawOk cfgOk envBadAudio
    "Invalid data found when processing input" rfl rfl).2 rfl rfl

/-- Claim C7: when `--audio` is omitted, argument parsing fails and the
process exits with a usage error; the event trace is empty, so the library
import, model construction and transcription are never attempted. -/
theorem C7_audio_required (raw : RawArgs) (env : Env)
    (h : raw.audio = none) :
    (∃ e, parse_args raw = .error e) ∧
    (mainRun raw env).exitCode = 2 ∧
    (mainRun raw env).events = [] ∧
    (mainRun raw env).stdout = [] := by
  have herr : ∃ e, parse_args raw = .error e := by
    cases hp : pythonParseInt raw.beamSizeToken with
    | none =>
      exact ⟨.badBeamSize raw.beamSizeToken, by simp only [parse_args, hp]⟩
    | some b =>
      by_cases hv : raw.vadFilterToken = "true" ∨ raw.vadFilterToken = "false"
      · exact ⟨.missingAudio,
          by simp only [parse_args, hp, parseRest, if_pos hv, h]⟩
      · exact ⟨.badVadFilter raw.vadFilterToken,
          by simp only [parse_args, hp, parseRest, if_neg hv]⟩
  obtain ⟨e, he⟩ := herr
  refine ⟨⟨e, he⟩, ?_, ?_, ?_⟩ <;> simp only [mainRun, he]

/-- Witness for C7 with an entirely default command line. -/
theorem C7_audio_witness :
    (∃ e, parse_args {} = .error e) ∧
    (mainRun {} envOk).exitCode = 2 ∧
    (mainRun {} envOk).events = [] ∧
    (mainRun {} envOk).stdout = [] :=
  C7_audio_required {} envOk rfl

/-- Claim C8: on a successful transcription the program exits with status 0
and stdout is exactly one line, the JSON object with exactly the two string
fields `text` and `language`; and every character of code point at least 32
other than the quote and the backslash — every non-ASCII character in
particular — is emitted verbatim by the JSON encoder. -/
theorem C8_success (raw : RawArgs) (cfg : Config) (env : Env)
    (segs : List Segment) (info : TranscribeInfo)
    (hp : parse_args raw = .ok cfg) (hi : env.importFasterWhisper = .ok ())
    (hc : env.construct (modelCall cfg) = .ok ())
    (ht : env.transcribe (modelCall cfg) (transcribeCall cfg) =
      .ok (segs, info)) :
    mainRun raw env =
      ⟨0, [jsonDumps ⟨joinSegments segs, payloadLanguage info⟩], [],
        [.importAttempt, .modelConstruct (modelCall cfg),
          .transcribeAttempt (modelCall cfg) (transcribeCall cfg)]⟩ ∧
    (∀ c : Char, 32 ≤ c.toNat → c ≠ '"' → c ≠ '\\' →
      jsonEscapeChar c = String.singleton c) := by
  constructor
  · simp only [mainRun, hp, mainAfterParse, hi, hc, ht]
  · intro c h32 hq hbs
    have h10 : c ≠ '\n' := by
      intro hcon; rw [hcon] at h32; exact absurd h32 (by decide)
    have h13 : c ≠ '\r' := by
      intro hcon; rw [hcon] at h32; exact absurd h32 (by decide)
    have h9 : c ≠ '\t' := by
      intro hcon; rw [hcon] at h32; exact absurd h32 (by decide)
    have h8 : ¬c.toNat = 8 := by omega
    have h12 : ¬c.toNat = 12 := by omega
    have hlt : ¬c.toNat < 32 := by omega
    simp only [jsonEscapeChar, if_neg hq, if_neg hbs, if_neg h10, if_neg h13,
      if_neg h9, if_neg h8, if_neg h12, if_neg hlt]

/-- Witness for C8: one non-ASCII segment, language `zh`. -/
theorem C8_success_witness :
    mainRun rawOk envZh =
      ⟨0, [jsonDumps ⟨joinSegments [⟨some "你好"⟩], payloadLanguage ⟨some "zh"⟩⟩],
        [],
        [.importAttempt, .modelConstruct (modelCall cfgOk),
          .transcribeAttempt (modelCall cfgOk) (transcribeCall cfgOk)]⟩ ∧
    (∀ c : Char, 32 ≤ c.toNat → c ≠ '"' → c ≠ '\\' →
      jsonEscapeChar c = String.singleton c) :=
  C8_success rawOk cfgOk envZh [⟨some "你好"⟩] ⟨some "zh"⟩ rfl rfl rfl rfl

/-- Claim C9: no partial output — every invocation either succeeds with
exit status 0 and a single complete JSON payload line on stdout, or fails
with a nonzero status and an empty stdout. -/
theorem C9_no_partial_output (raw : RawArgs) (env : Env) :
    ((mainRun raw env).exitCode = 0 ∧
      ∃ p : Payload, (mainRun raw env).stdout = [jsonDumps p]) ∨
    ((mainRun raw env).exitCode ≠ 0 ∧ (mainRun raw env).stdout = []) := by
  cases hp : parse_args raw with
  | error e =>
    right
    exact ⟨by simp [mainRun, hp], by simp [mainRun, hp]⟩
  | ok cfg =>
    cases hi : env.importFasterWhisper with
    | error exc =>
      right
      exact ⟨by simp [mainRun, hp, mainAfterParse, hi],
        by simp [mainRun, hp, mainAfterParse, hi]⟩
    | ok u =>
      cases hc : env.construct (modelCall cfg) with
      | error exc =>
        right
        exact ⟨by simp [mainRun, hp, mainAfterParse, hi, hc],
          by simp [mainRun, hp, mainAfterParse, hi, hc]⟩
      | ok v =>
        cases ht : env.transcribe (modelCall cfg) (transcribeCall cfg) with
        | error exc =>
          right
          exact ⟨by simp [mainRun, hp, mainAfterParse, hi, hc, ht],
            by simp [mainRun, hp, mainAfterParse, hi, hc, ht]⟩
        | ok res =>
          obtain ⟨segs, info⟩ := res
          left
          exact ⟨by simp [mainRun, hp, mainAfterParse, hi, hc, ht],
            ⟨⟨joinSegments segs, payloadLanguage info⟩,
              by simp [mainRun, hp, mainAfterParse, hi, hc, ht]⟩⟩

/-- Claim C10: a `--beam-size` token that is not a valid integer literal is
rejected at argument-parsing time with a usage error, before any library
import, model construction or transcription. -/
theorem C10_beam_nonint_rejected (raw : RawArgs) (env : Env)
    (h : pythonParseInt raw.beamSizeToken = none) :
    parse_args raw = .error (.badBeamSize raw.beamSizeToken) ∧
    (mainRun raw env).exitCode = 2 ∧
    (mainRun raw env).events = [] ∧
    (mainRun raw env).stdout = [] := by
  have he : parse_args raw = .error (.badBeamSize raw.beamSizeToken) := by
    simp only [parse_args, h]
  refine ⟨he, ?_, ?_, ?_⟩ <;> simp only [mainRun, he]

/-- Witness for C10 with `--beam-size two`. -/
theorem C10_beam_nonint_witness :
    parse_args { rawOk with beamSizeToken := "two" } =
      .error (.badBeamSize ({ rawOk with beamSizeToken := "two" } : RawArgs).beamSizeToken) ∧
    (mainRun { rawOk with beamSizeToken := "two" } envOk).exitCode = 2 ∧
    (mainRun { rawOk with beamSizeToken := "two" } envOk).events = [] ∧
    (mainRun { rawOk with beamSizeToken := "two" } envOk).stdout = [] :=
  C10_beam_nonint_rejected { rawOk with beamSizeToken := "two" } envOk
    (by decide)
